import Mathlib

/-!
Shallow embedding of the fake-news-detector model-acquisition and serving core:
`src/api/model_loader.py` (ModelLoader), `src/api/app.py` (batch_predict), and
`src/storage/s3_client.py` (S3Client.download_model, S3Client.list_models).

External effects (S3 downloads, the local filesystem, `joblib.load`, sklearn
construction, `datetime.now()`) are modelled by an explicit environment whose
fields record the outcome of each external call, including every point where a
Python exception can be raised; the Python `try/except` blocks become explicit
control flow on these outcomes. Artifacts (deserialized joblib objects) are
opaque identities (`Nat`); their behaviour (`transform`, `predict`,
`predict_proba`) is supplied by a prediction environment. Class probabilities
are embedded as rationals: the code performs no arithmetic on them, only
selection (`max`) and indexing, so this is exact.
-/

namespace FakeNews

/-- Opaque identity of a deserialized artifact (a joblib object). -/
abbrev Artifact := Nat

/-- Outcome of a `joblib.load` call: the loaded object, or a raised exception. -/
inductive LoadOutcome where
  | ok (a : Artifact)
  | raises
  deriving DecidableEq

/-- Outcome of `ModelLoader._load_dummy_model` (model_loader.py lines 153-188).
`ok m v`: the imports, constructors and `fit` all succeed, producing fresh dummy
artifacts `m`, `v`. `raisesBeforeAssign`: an exception before line 165 (e.g. the
sklearn import at line 158), so neither field was assigned. `raisesAfterAssign`:
an exception at `fit_transform`/`fit` (lines 172-173), after both `self.model`
(line 165) and `self.vectorizer` (line 166) were assigned fresh objects. -/
inductive DummyOutcome where
  | ok (m v : Artifact)
  | raisesBeforeAssign
  | raisesAfterAssign (m v : Artifact)
  deriving DecidableEq

/-- The `self.model_info` dict, one constructor per shape the code builds:
lines 88-95 (S3), lines 137-143 (local), lines 175-180 (dummy). -/
inductive ModelInfo where
  | fromS3 (bucket modelKey vectorizerKey : String) (loadedAt : Nat) (modelType : String)
  | fromLocal (modelPath vectorizerPath : String) (loadedAt : Nat) (modelType : String)
  | fromDummy (loadedAt : Nat) (modelType : String) (warning : String)
  deriving DecidableEq

/-- The `source` entry of `model_info`: `'s3'`, `'local'` or `'dummy'`. -/
def ModelInfo.source : ModelInfo → String
  | .fromS3 .. => "s3"
  | .fromLocal .. => "local"
  | .fromDummy .. => "dummy"

/-- The `loaded_at` entry of `model_info` (the time the load completed). -/
def ModelInfo.loadedAt : ModelInfo → Nat
  | .fromS3 _ _ _ t _ => t
  | .fromLocal _ _ t _ => t
  | .fromDummy t _ _ => t

/-- The mutable fields of a `ModelLoader` instance touched by loading:
`self.model`, `self.vectorizer`, `self.model_info` (`none` models the initial
empty dict `{}`), `self.last_loaded`. -/
structure LoaderState where
  model : Option Artifact
  vectorizer : Option Artifact
  modelInfo : Option ModelInfo
  lastLoaded : Option Nat
  deriving DecidableEq

/-- `ModelLoader.__init__` field initialisation (lines 43-46). -/
def initialState : LoaderState := ⟨none, none, none, none⟩

/-- The `s3_config` dict handed to `ModelLoader` (see `create_model_loader`). -/
structure S3Config where
  endpointUrl : String
  bucketName : String
  modelKey : String
  vectorizerKey : String
  deriving DecidableEq

/-- Environment of one `load_model` run: outcome of every external call.
`s3Available`: `self.s3_client` is not `None`. `remoteModel` /
`remoteVectorizer`: result of `s3_client.download_model` for the two keys
(`none` = the client returned `None`; `download_model` catches all its own
exceptions, see s3_client.py lines 104-125, so it never raises).
`localDirExists`: `os.path.exists(models_dir)`. `localFiles`:
`os.listdir(models_dir)`. `fileExists f`: `os.path.exists(models_dir/f)`.
`loadFile f`: `joblib.load(models_dir/f)` (value or raised exception).
`dummy`: outcome of `_load_dummy_model`. `typeName a`:
`type(a).__name__`. `modelsDir`: the `models_dir` path string. `now`: the
`datetime.now()` timestamp of this run. -/
structure LoadEnv where
  s3Available : Bool
  remoteModel : Option Artifact
  remoteVectorizer : Option Artifact
  localDirExists : Bool
  localFiles : List String
  fileExists : String → Bool
  loadFile : String → LoadOutcome
  dummy : DummyOutcome
  typeName : Artifact → String
  modelsDir : String
  now : Nat

/-- `os.path.join(d, f)`. -/
def joinPath (d f : String) : String := d ++ "/" ++ f

/-- Python `s.endswith(suffix)`. -/
def endswith (s suffix : String) : Bool := suffix.data.isSuffixOf s.data

/-- `ModelLoader._load_dummy_model` (lines 153-188): on success both fields are
replaced by fresh dummy artifacts and `model_info`/`last_loaded` are set (source
`'dummy'`); an early exception leaves the state untouched; an exception after
the assignments of lines 165-166 leaves both fields holding fresh (unfit)
objects. Returns the `bool` result together with the state. -/
def load_dummy_model (env : LoadEnv) (s : LoaderState) : Bool × LoaderState :=
  match env.dummy with
  | .ok m v =>
    (true, { model := some m, vectorizer := some v,
             modelInfo := some (.fromDummy env.now "DummyLogisticRegression"
               "Este é um modelo dummy para desenvolvimento"),
             lastLoaded := some env.now })
  | .raisesBeforeAssign => (false, s)
  | .raisesAfterAssign m v => (false, { s with model := some m, vectorizer := some v })

/-- Outcome of the body of `_load_local_fallback` before the tier commits:
either the success-check of line 136 passed (with the state after the
conditional assignments of lines 128-134 and the chosen model file name), or
the tier falls through to `_load_dummy_model` carrying the state at the point
of fallthrough (missing directory, no `.joblib` files, a caught exception, or
a failed success-check). -/
inductive LocalOutcome where
  | success (s₂ : LoaderState) (modelFile : String)
  | fallthrough (sExit : LoaderState)
  deriving DecidableEq

/-- Line 136: `if self.model and self.vectorizer`. -/
def localCheck (s₂ : LoaderState) (modelFile : String) : LocalOutcome :=
  if s₂.model.isSome && s₂.vectorizer.isSome then .success s₂ modelFile
  else .fallthrough s₂

/-- Lines 132-134: `if os.path.exists(vectorizer_path): self.vectorizer =
joblib.load(vectorizer_path)`; a raised exception is caught at line 149 and
falls through with the state as assigned so far. -/
def localVectorizerStep (env : LoadEnv) (s₁ : LoaderState) (modelFile : String) : LocalOutcome :=
  if env.fileExists "vectorizer.joblib" then
    match env.loadFile "vectorizer.joblib" with
    | .ok v => localCheck { s₁ with vectorizer := some v } modelFile
    | .raises => .fallthrough s₁
  else localCheck s₁ modelFile

/-- The scan of `_load_local_fallback` (lines 110-136): directory check, the
`.joblib` filter of line 118, first-file selection of line 125, and the two
conditional loads; exceptions fall through with the partially updated state. -/
def localAttempt (env : LoadEnv) (s : LoaderState) : LocalOutcome :=
  if env.localDirExists then
    match env.localFiles.filter (fun f => endswith f ".joblib") with
    | [] => .fallthrough s
    | modelFile :: _ =>
      if env.fileExists modelFile then
        match env.loadFile modelFile with
        | .ok m => localVectorizerStep env { s with model := some m } modelFile
        | .raises => .fallthrough s
      else localVectorizerStep env s modelFile
  else .fallthrough s

/-- The state committed by a successful local tier (lines 137-144): the scanned
state plus fresh `model_info` (source `'local'`, paths, `type(self.model)`)
and `last_loaded`. -/
def localSuccess (env : LoadEnv) (s₂ : LoaderState) (modelFile : String) : LoaderState :=
  { s₂ with
    modelInfo := some (.fromLocal (joinPath env.modelsDir modelFile)
      (joinPath env.modelsDir "vectorizer.joblib") env.now
      (env.typeName (s₂.model.getD 0))),
    lastLoaded := some env.now }

/-- `ModelLoader._load_local_fallback` (lines 105-151): commit on a passed
success-check, otherwise `_load_dummy_model` on the fallthrough state. -/
def load_local_fallback (env : LoadEnv) (s : LoaderState) : Bool × LoaderState :=
  match localAttempt env s with
  | .success s₂ modelFile => (true, localSuccess env s₂ modelFile)
  | .fallthrough sExit => load_dummy_model env sExit

/-- `ModelLoader.load_model` (lines 56-103): remote tier, assigning each field
as the corresponding download returns (lines 76 and 82 assign even when the
download returned `None`), falling through to `_load_local_fallback` when the
client is missing or a download failed; on remote success `model_info`
(source `'s3'`) and `last_loaded` are set. -/
def load_model (env : LoadEnv) (cfg : S3Config) (s : LoaderState) : Bool × LoaderState :=
  if env.s3Available then
    match env.remoteModel with
    | none => load_local_fallback env { s with model := none }
    | some m =>
      match env.remoteVectorizer with
      | none => load_local_fallback env { s with model := some m, vectorizer := none }
      | some v =>
        (true, { model := some m, vectorizer := some v,
                 modelInfo := some (.fromS3 cfg.bucketName cfg.modelKey cfg.vectorizerKey
                   env.now (env.typeName m)),
                 lastLoaded := some env.now })
  else load_local_fallback env s

/-- `ModelLoader.is_model_loaded` (lines 190-192). -/
def is_model_loaded (s : LoaderState) : Bool := s.model.isSome && s.vectorizer.isSome

/-- The remote tier succeeds: client present and both downloads returned an
object (the condition under which lines 88-99 run). -/
def remoteOk (env : LoadEnv) : Bool :=
  env.s3Available && env.remoteModel.isSome && env.remoteVectorizer.isSome

/-- The state `load_model` hands to `_load_local_fallback` when the remote tier
fails: untouched when the client is missing; `model` overwritten with `None`
when the model download failed (line 76); `model` overwritten with the new
object and `vectorizer` with `None` when only the vectorizer download failed
(lines 76, 82). -/
def postRemoteState (env : LoadEnv) (s : LoaderState) : LoaderState :=
  if env.s3Available then
    match env.remoteModel with
    | none => { s with model := none }
    | some m =>
      match env.remoteVectorizer with
      | none => { s with model := some m, vectorizer := none }
      | some _ => s
  else s

/-- The state committed by a successful remote tier (lines 76-97). -/
def s3SuccessState (env : LoadEnv) (cfg : S3Config) : LoaderState :=
  { model := env.remoteModel, vectorizer := env.remoteVectorizer,
    modelInfo := some (.fromS3 cfg.bucketName cfg.modelKey cfg.vectorizerKey
      env.now (env.typeName (env.remoteModel.getD 0))),
    lastLoaded := some env.now }

/-- Behaviour of loaded artifacts, supplied to `predict`:
`transform v t` = `vectorizer.transform([t])` (an encoded feature vector),
`predictIdx m x` = `model.predict(x)[0]` (the predicted class index),
`predictProba m x` = `model.predict_proba(x)[0]` = `(p_real, p_fake)`. -/
structure PredEnv where
  transform : Artifact → String → Nat
  predictIdx : Artifact → Nat → Nat
  predictProba : Artifact → Nat → ℚ × ℚ

/-- The dict returned by `ModelLoader.predict` (lines 219-226). -/
structure PredResult where
  prediction : String
  confidence : ℚ
  probReal : ℚ
  probFake : ℚ
  deriving DecidableEq

/-- `ModelLoader.predict` (lines 194-230): raises (modelled as `.error`) when
either artifact is absent (`is_model_loaded` is exactly the pattern
`some _, some _`); otherwise vectorizes, predicts, and maps class index 1 to
`'fake'`, anything else to `'real'`, with `confidence = max(probabilities)`,
`probabilities['real'] = probabilities[0]`, `probabilities['fake'] =
probabilities[1]`. -/
def predict (penv : PredEnv) (s : LoaderState) (text : String) : Except String PredResult :=
  match s.model, s.vectorizer with
  | some m, some v =>
    let x := penv.transform v text
    let cls := penv.predictIdx m x
    let p := penv.predictProba m x
    .ok { prediction := if cls = 1 then "fake" else "real",
          confidence := max p.1 p.2,
          probReal := p.1, probFake := p.2 }
  | _, _ => .error "Modelo não está carregado"

/-- Python `not text.strip()`: the text is empty or all whitespace. -/
def isBlank (t : String) : Bool := t.data.all (fun c => c.isWhitespace)

/-- One element of the `results` list built by `batch_predict`
(app.py lines 165-176); `errMsg` models the `"error"` key, present only in the
empty-text entry. -/
structure BatchEntry where
  prediction : String
  confidence : ℚ
  probReal : ℚ
  probFake : ℚ
  errMsg : Option String
  deriving DecidableEq

/-- The per-item error object of app.py lines 171-176. -/
def emptyTextEntry : BatchEntry :=
  { prediction := "error", confidence := 0, probReal := 0, probFake := 0,
    errMsg := some "Texto vazio" }

/-- A successful per-item prediction appended at app.py line 169. -/
def entryOfResult (r : PredResult) : BatchEntry :=
  { prediction := r.prediction, confidence := r.confidence,
    probReal := r.probReal, probFake := r.probFake, errMsg := none }

/-- Response of the `batch_predict` endpoint: an `HTTPException` or the
`{"predictions": results}` payload. -/
inductive BatchResponse where
  | httpError (status : Nat) (detail : String)
  | ok (predictions : List BatchEntry)
  deriving DecidableEq

/-- The `for text in texts` loop of app.py lines 166-176: non-blank texts are
predicted, blank texts get the structured error entry; an exception raised by
`model_loader.predict` aborts the loop (it propagates to the handler of line
182). -/
def runBatch (penv : PredEnv) (s : LoaderState) : List String → Except String (List BatchEntry)
  | [] => .ok []
  | t :: ts =>
    if isBlank t then
      match runBatch penv s ts with
      | .ok es => .ok (emptyTextEntry :: es)
      | .error e => .error e
    else
      match predict penv s t with
      | .ok r =>
        match runBatch penv s ts with
        | .ok es => .ok (entryOfResult r :: es)
        | .error e => .error e
      | .error e => .error e

/-- `batch_predict` (app.py lines 141-184): 503 when the loader is missing or
no model is loaded, then 400 when more than 100 texts, then the per-item loop;
a propagated prediction exception becomes a 500. -/
def batch_predict (penv : PredEnv) (loader : Option LoaderState) (texts : List String) :
    BatchResponse :=
  match loader with
  | none => .httpError 503 "Modelo não está disponível"
  | some s =>
    if is_model_loaded s then
      if texts.length > 100 then .httpError 400 "Máximo de 100 textos por requisição"
      else
        match runBatch penv s texts with
        | .ok rs => .ok rs
        | .error _ => .httpError 500 "Erro interno na predição em lote"
    else .httpError 503 "Modelo não está disponível"

/-- The entry `batch_predict` produces for one input text, given the loaded
artifacts: the structured error entry for blank text, otherwise the fields of
`ModelLoader.predict`'s result. Used to state order preservation. -/
def batchItem (penv : PredEnv) (m v : Artifact) (t : String) : BatchEntry :=
  if isBlank t then emptyTextEntry
  else
    let x := penv.transform v t
    let p := penv.predictProba m x
    { prediction := if penv.predictIdx m x = 1 then "fake" else "real",
      confidence := max p.1 p.2, probReal := p.1, probFake := p.2, errMsg := none }

/-- Outcome of the boto3 `download_file` call inside `S3Client.download_model`
(s3_client.py line 111): success, a not-found `ClientError`, or any other
transport/storage exception. -/
inductive DownloadFileOutcome where
  | ok
  | raisesNotFound
  | raisesTransport
  deriving DecidableEq

/-- Environment of one `S3Client.download_model` call: the `download_file`
outcome and, when it succeeded, the `joblib.load` outcome on the downloaded
temporary file (line 114). -/
structure DownloadEnv where
  downloadFile : DownloadFileOutcome
  loadObject : LoadOutcome
  deriving DecidableEq

/-- `S3Client.download_model` (s3_client.py lines 92-125): the whole body is
wrapped in `try/except Exception: return None`, so every failure — not-found,
transport, or deserialization — yields `None`. -/
def download_model (e : DownloadEnv) : Option Artifact :=
  match e.downloadFile with
  | .ok =>
    match e.loadObject with
    | .ok a => some a
    | .raises => none
  | .raisesNotFound => none
  | .raisesTransport => none

/-- Outcome of the `list_objects_v2` call inside `S3Client.list_models`
(s3_client.py line 130): the keys under the prefix (possibly empty, modelling
a response without `Contents`), or a raised exception. -/
inductive ListOutcome where
  | ok (keys : List String)
  | raises
  deriving DecidableEq

/-- `S3Client.list_models` (s3_client.py lines 127-145): returns the keys, `[]`
when the response has no `Contents`, and — via the blanket `except` of line
143 — `[]` when the backend call raised. -/
def list_models (o : ListOutcome) : List String :=
  match o with
  | .ok ks => ks
  | .raises => []

/-- The `source` recorded in a loader state, when any. -/
def sourceOf (s : LoaderState) : Option String := s.modelInfo.map ModelInfo.source

/-- Sample config (the defaults of `create_model_loader`). -/
def cfg0 : S3Config :=
  ⟨"http://localhost:4566", "fake-news-models", "models/best_model.joblib",
   "models/vectorizer.joblib"⟩

/-- Environment where the remote model download succeeds but the vectorizer
download fails, the local directory is missing, and dummy construction fails
before assigning: the load fails after overwriting `self.model`. -/
def envHalf : LoadEnv :=
  ⟨true, some 7, none, false, [], fun _ => false, fun _ => .raises,
   .raisesBeforeAssign, fun _ => "LogisticRegression", "models", 0⟩

/-- Environment where no tier performs any assignment before failing. -/
def envNoAssign : LoadEnv :=
  ⟨false, none, none, false, [], fun _ => false, fun _ => .raises,
   .raisesBeforeAssign, fun _ => "LogisticRegression", "models", 0⟩

/-- Environment where the remote tier succeeds. -/
def envRemote : LoadEnv :=
  ⟨true, some 3, some 4, false, [], fun _ => false, fun _ => .raises,
   .raisesBeforeAssign, fun _ => "LogisticRegression", "models", 1⟩

/-- Environment where remote and local tiers fail and the dummy tier
succeeds. -/
def envDummyOk : LoadEnv :=
  ⟨false, none, none, false, [], fun _ => false, fun _ => .raises,
   .ok 1 2, fun _ => "LogisticRegression", "models", 2⟩

/-- Environment where the remote tier fails and the local tier succeeds with
`best_model.joblib` as the model file. -/
def envLocalOk : LoadEnv :=
  ⟨false, none, none, true, ["best_model.joblib"], fun _ => true,
   fun f => if f = "vectorizer.joblib" then .ok 9 else .ok 8,
   .raisesBeforeAssign, fun _ => "LogisticRegression", "models", 3⟩

/-- Environment where the first `.joblib` file in the local listing is
`vectorizer.joblib` itself. -/
def envVecFirst : LoadEnv :=
  ⟨false, none, none, true, ["vectorizer.joblib"], fun _ => true,
   fun _ => .ok 5, .raisesBeforeAssign, fun _ => "TfidfVectorizer", "models", 4⟩

/-- The state produced by a successful dummy-tier load in `envDummyOk`. -/
def stDummy : LoaderState :=
  ⟨some 1, some 2,
   some (.fromDummy 2 "DummyLogisticRegression" "Este é um modelo dummy para desenvolvimento"),
   some 2⟩

/-- Sample prediction behaviour: every text maps to class index 1 (fake) with
probabilities `(0, 1)`. -/
def penv0 : PredEnv := ⟨fun _ _ => 0, fun _ _ => 1, fun _ _ => (0, 1)⟩

/-- When the client is present and both downloads return an object,
`load_model` commits the remote tier's state and reports success. -/
theorem loadModel_of_remoteOk (env : LoadEnv) (cfg : S3Config) (s : LoaderState)
    (h : remoteOk env = true) :
    load_model env cfg s = (true, s3SuccessState env cfg) := by
  simp only [remoteOk, Bool.and_eq_true, Option.isSome_iff_exists] at h
  obtain ⟨⟨hA, m, hm⟩, v, hv⟩ := h
  simp [load_model, hA, hm, hv, s3SuccessState]

/-- When the remote tier fails, `load_model` runs `_load_local_fallback` on the
state left by the tier's in-place assignments. -/
theorem loadModel_of_remoteFail (env : LoadEnv) (cfg : S3Config) (s : LoaderState)
    (h : remoteOk env = false) :
    load_model env cfg s = load_local_fallback env (postRemoteState env s) := by
  unfold load_model postRemoteState
  cases hA : env.s3Available
  · simp
  · cases hm : env.remoteModel with
    | none => simp
    | some m =>
      cases hv : env.remoteVectorizer with
      | none => simp
      | some v => exact absurd h (by simp [remoteOk, hA, hm, hv])

/-- A passed success-check commits the local tier's state. -/
theorem fallback_of_success (env : LoadEnv) (t s₂ : LoaderState) (mf : String)
    (h : localAttempt env t = .success s₂ mf) :
    load_local_fallback env t = (true, localSuccess env s₂ mf) := by
  simp [load_local_fallback, h]

/-- A fallthrough of the local tier runs `_load_dummy_model` on the state at
the point of fallthrough. -/
theorem fallback_of_fallthrough (env : LoadEnv) (t sE : LoaderState)
    (h : localAttempt env t = .fallthrough sE) :
    load_local_fallback env t = load_dummy_model env sE := by
  simp [load_local_fallback, h]

/-- A dummy-tier run that reports success recorded source `'dummy'`. -/
theorem load_dummy_model_true (env : LoadEnv) (t s₂ : LoaderState)
    (h : load_dummy_model env t = (true, s₂)) :
    s₂.modelInfo = some (.fromDummy env.now "DummyLogisticRegression"
      "Este é um modelo dummy para desenvolvimento") := by
  cases hd : env.dummy with
  | ok m v =>
    simp only [load_dummy_model, hd, Prod.mk.injEq, true_and] at h
    subst h
    rfl
  | raisesBeforeAssign => simp [load_dummy_model, hd] at h
  | raisesAfterAssign m v => simp [load_dummy_model, hd] at h

/-- When dummy construction succeeds, the local fallback reports success. -/
theorem fallback_fst_true_of_dummyOk (env : LoadEnv) (t : LoaderState) (m v : Artifact)
    (h : env.dummy = .ok m v) :
    (load_local_fallback env t).1 = true := by
  unfold load_local_fallback
  cases hl : localAttempt env t with
  | success s₂ mf => rfl
  | fallthrough sE => simp [load_dummy_model, h]

/-- C1 counterexample: with the previous state empty, an execution in which the
remote model download succeeds, the vectorizer download fails, the local
directory is missing and placeholder construction raises, reports failure yet
leaves `model` holding the newly downloaded artifact while `vectorizer` is
null — the pair observable afterwards differs from the pair before. -/
theorem load_not_all_or_nothing :
    (load_model envHalf cfg0 initialState).1 = false ∧
    (load_model envHalf cfg0 initialState).2.model = some 7 ∧
    (load_model envHalf cfg0 initialState).2.vectorizer = none ∧
    (load_model envHalf cfg0 initialState).2 ≠ initialState := by decide

/-- C1 (amended): loads are not all-or-nothing — each tier assigns `model` and
`vectorizer` in place as it goes, so a failed load can leave exactly one of
them replaced (see the counterexample). A failed load leaves the previous pair
untouched only when no tier performed an assignment before failing: S3 client
unavailable, local directory missing, and placeholder construction failing
before its assignments. -/
theorem load_failure_preserves_state_when_no_tier_assigns
    (env : LoadEnv) (cfg : S3Config) (s : LoaderState)
    (h1 : env.s3Available = false) (h2 : env.localDirExists = false)
    (h3 : env.dummy = .raisesBeforeAssign) :
    load_model env cfg s = (false, s) := by
  simp [load_model, h1, load_local_fallback, localAttempt, h2, load_dummy_model, h3]

/-- C1 witness: the preserving failure path at a concrete environment. -/
theorem load_failure_preserves_state_when_no_tier_assigns_witness :
    envNoAssign.s3Available = false ∧ envNoAssign.localDirExists = false ∧
    envNoAssign.dummy = .raisesBeforeAssign ∧
    load_model envNoAssign cfg0 initialState = (false, initialState) :=
  ⟨rfl, rfl, rfl,
   load_failure_preserves_state_when_no_tier_assigns envNoAssign cfg0 initialState rfl rfl rfl⟩

/-- C2: acquisition attempts its tiers in strict order and stops at the first
success. If the remote tier succeeds, the result is exactly the remote tier's
state (for every outcome of the local and dummy tiers, which are therefore
never consulted and never overwrite it); the local tier runs only when the
remote tier failed; a passed local success-check ends the acquisition with the
local tier's state; the dummy tier runs only when the local tier also fell
through. -/
theorem load_model_tier_order (env : LoadEnv) (cfg : S3Config) (s : LoaderState) :
    (remoteOk env = true → load_model env cfg s = (true, s3SuccessState env cfg)) ∧
    (remoteOk env = false →
      load_model env cfg s = load_local_fallback env (postRemoteState env s)) ∧
    (∀ t s₂ mf, localAttempt env t = .success s₂ mf →
      load_local_fallback env t = (true, localSuccess env s₂ mf)) ∧
    (∀ t sE, localAttempt env t = .fallthrough sE →
      load_local_fallback env t = load_dummy_model env sE) :=
  ⟨loadModel_of_remoteOk env cfg s, loadModel_of_remoteFail env cfg s,
   fun t s₂ mf h => fallback_of_success env t s₂ mf h,
   fun t sE h => fallback_of_fallthrough env t sE h⟩

/-- C2 witness: each tier-ordering clause at a concrete environment. -/
theorem load_model_tier_order_witness :
    load_model envRemote cfg0 initialState = (true, s3SuccessState envRemote cfg0) ∧
    load_model envLocalOk cfg0 initialState =
      load_local_fallback envLocalOk (postRemoteState envLocalOk initialState) ∧
    load_local_fallback envLocalOk initialState =
      (true, localSuccess envLocalOk ⟨some 8, some 9, none, none⟩ "best_model.joblib") ∧
    load_local_fallback envDummyOk initialState = load_dummy_model envDummyOk initialState :=
  ⟨(load_model_tier_order envRemote cfg0 initialState).1 (by decide),
   (load_model_tier_order envLocalOk cfg0 initialState).2.1 (by decide),
   (load_model_tier_order envLocalOk cfg0 initialState).2.2.1 initialState
     ⟨some 8, some 9, none, none⟩ "best_model.joblib" (by decide),
   (load_model_tier_order envDummyOk cfg0 initialState).2.2.2 initialState initialState
     (by decide)⟩

/-- C4: whenever placeholder construction succeeds, the acquisition as a whole
reports success, whatever the storage configuration and however the remote and
local tiers failed. Every external failure point (unreachable client, failed
download, missing file or directory, failed deserialization) is an explicit
case of the environment, and `load_model` is a total function on it: no
exception escapes; only a dummy-construction failure can make it report
failure. -/
theorem load_model_always_succeeds (env : LoadEnv) (cfg : S3Config) (s : LoaderState)
    (m v : Artifact) (h : env.dummy = .ok m v) :
    (load_model env cfg s).1 = true := by
  unfold load_model
  cases hA : env.s3Available with
  | false => simpa using fallback_fst_true_of_dummyOk env s m v h
  | true =>
    simp only [if_true]
    cases hm : env.remoteModel with
    | none => exact fallback_fst_true_of_dummyOk env _ m v h
    | some m₀ =>
      cases hv : env.remoteVectorizer with
      | none => exact fallback_fst_true_of_dummyOk env _ m v h
      | some v₀ => rfl

/-- C4 witness: the dummy tier succeeding after the other tiers failed. -/
theorem load_model_always_succeeds_witness :
    envDummyOk.dummy = .ok 1 2 ∧ (load_model envDummyOk cfg0 initialState).1 = true :=
  ⟨rfl, load_model_always_succeeds envDummyOk cfg0 initialState 1 2 rfl⟩

/-- C3 counterexample: when the remote and local tiers fail and the
placeholder tier succeeds, the load reports success but the recorded source is
the string `'dummy'` — not `'synthesized'`, and not any of the three values the
claim names. -/
theorem provenance_source_literals_counterexample :
    (load_model envDummyOk cfg0 initialState).1 = true ∧
    sourceOf (load_model envDummyOk cfg0 initialState).2 = some "dummy" ∧
    sourceOf (load_model envDummyOk cfg0 initialState).2 ≠ some "remote" ∧
    sourceOf (load_model envDummyOk cfg0 initialState).2 ≠ some "local" ∧
    sourceOf (load_model envDummyOk cfg0 initialState).2 ≠ some "synthesized" := by decide

/-- C3 (amended): after every successful load the recorded provenance has
source equal to one of `'s3'`, `'local'`, `'dummy'` (the code's literals for
the remote, local and synthesized tiers), matching the tier that produced the
artifacts — when the remote tier succeeds the source is `'s3'`, when it fails
and the local tier succeeds the source is `'local'`, and when both fail it is
`'dummy'` — and the provenance is freshly written (its timestamp is this
load's `now`). -/
theorem load_model_provenance (env : LoadEnv) (cfg : S3Config) (s s₂ : LoaderState)
    (h : load_model env cfg s = (true, s₂)) :
    ∃ i, s₂.modelInfo = some i ∧ i.loadedAt = env.now ∧
      (i.source = "s3" ∨ i.source = "local" ∨ i.source = "dummy") ∧
      (remoteOk env = true → i.source = "s3") ∧
      (remoteOk env = false →
        ∀ t₂ mf, localAttempt env (postRemoteState env s) = .success t₂ mf →
          i.source = "local") ∧
      (remoteOk env = false →
        ∀ sE, localAttempt env (postRemoteState env s) = .fallthrough sE →
          i.source = "dummy") := by
  cases hr : remoteOk env with
  | true =>
    rw [loadModel_of_remoteOk env cfg s hr] at h
    injection h with h1 h2
    subst h2
    refine ⟨_, rfl, rfl, Or.inl rfl, fun _ => rfl, ?_, ?_⟩
    · intro hf
      exact absurd hf (by decide)
    · intro hf
      exact absurd hf (by decide)
  | false =>
    rw [loadModel_of_remoteFail env cfg s hr] at h
    cases hl : localAttempt env (postRemoteState env s) with
    | success t₂ mf =>
      rw [fallback_of_success env _ t₂ mf hl] at h
      injection h with h1 h2
      subst h2
      refine ⟨_, rfl, rfl, Or.inr (Or.inl rfl), ?_, fun _ _ _ _ => rfl, ?_⟩
      · intro hf
        exact absurd hf (by decide)
      · intro hf sE hE
        cases hE
    | fallthrough sE =>
      rw [fallback_of_fallthrough env _ sE hl] at h
      have hm := load_dummy_model_true env sE s₂ h
      refine ⟨_, hm, rfl, Or.inr (Or.inr rfl), ?_, ?_, fun _ _ _ => rfl⟩
      · intro hf
        exact absurd hf (by decide)
      · intro hf t₂ mf hE
        cases hE

/-- C3 witness: the amended provenance contract at a successful dummy-tier
load. -/
theorem load_model_provenance_witness :
    ∃ i, stDummy.modelInfo = some i ∧ i.loadedAt = envDummyOk.now ∧
      (i.source = "s3" ∨ i.source = "local" ∨ i.source = "dummy") ∧
      (remoteOk envDummyOk = true → i.source = "s3") ∧
      (remoteOk envDummyOk = false →
        ∀ t₂ mf, localAttempt envDummyOk (postRemoteState envDummyOk initialState) =
          .success t₂ mf → i.source = "local") ∧
      (remoteOk envDummyOk = false →
        ∀ sE, localAttempt envDummyOk (postRemoteState envDummyOk initialState) =
          .fallthrough sE → i.source = "dummy") :=
  load_model_provenance envDummyOk cfg0 initialState stDummy (by decide)

/-- C5: for every loaded (model, vectorizer) pair and every text, the result of
`predict` has confidence equal to the maximum of the two class probabilities,
maps `real` to probability index 0 and `fake` to index 1, and its label is
`'fake'` exactly when the model's predicted class index is 1, `'real'`
otherwise. -/
theorem predict_contract (penv : PredEnv) (m v : Artifact) (info : Option ModelInfo)
    (ll : Option Nat) (text : String) (r : PredResult)
    (h : predict penv ⟨some m, some v, info, ll⟩ text = .ok r) :
    r.confidence = max r.probReal r.probFake ∧
    r.probReal = (penv.predictProba m (penv.transform v text)).1 ∧
    r.probFake = (penv.predictProba m (penv.transform v text)).2 ∧
    (r.prediction = "fake" ↔ penv.predictIdx m (penv.transform v text) = 1) ∧
    (penv.predictIdx m (penv.transform v text) ≠ 1 → r.prediction = "real") := by
  simp only [predict, Except.ok.injEq] at h
  subst h
  have hrf : ("real" : String) ≠ "fake" := by decide
  refine ⟨rfl, rfl, rfl, ?_, ?_⟩
  · by_cases hc : penv.predictIdx m (penv.transform v text) = 1 <;> simp [hc, hrf]
  · intro hc
    simp [hc]

/-- C5 witness: the prediction contract at a concrete model whose predicted
class index is 1 with probabilities `(0, 1)`. -/
theorem predict_contract_witness :
    (PredResult.mk "fake" 1 0 1).confidence =
      max (PredResult.mk "fake" 1 0 1).probReal (PredResult.mk "fake" 1 0 1).probFake ∧
    (PredResult.mk "fake" 1 0 1).probReal = (penv0.predictProba 0 (penv0.transform 0 "t")).1 ∧
    (PredResult.mk "fake" 1 0 1).probFake = (penv0.predictProba 0 (penv0.transform 0 "t")).2 ∧
    ((PredResult.mk "fake" 1 0 1).prediction = "fake" ↔
      penv0.predictIdx 0 (penv0.transform 0 "t") = 1) ∧
    (penv0.predictIdx 0 (penv0.transform 0 "t") ≠ 1 →
      (PredResult.mk "fake" 1 0 1).prediction = "real") :=
  predict_contract penv0 0 0 none none "t" ⟨"fake", 1, 0, 1⟩ (by rfl)

/-- With a loaded model the batch loop never raises: it yields one entry per
input text, in order. -/
theorem runBatch_loaded (penv : PredEnv) (m v : Artifact) (info : Option ModelInfo)
    (ll : Option Nat) (texts : List String) :
    runBatch penv ⟨some m, some v, info, ll⟩ texts =
      .ok (texts.map (batchItem penv m v)) := by
  induction texts with
  | nil => rfl
  | cons t ts ih =>
    unfold runBatch
    cases hb : isBlank t with
    | true => simp [hb, ih, batchItem]
    | false => simp [hb, ih, predict, batchItem, entryOfResult]

/-- C6: with a loaded model, a batch of more than 100 items is rejected
wholesale with the 400 client error (the loop never runs), and a batch of at
most 100 items yields exactly one entry per input, in input order, where each
blank text yields the structured error entry (`prediction='error'`,
`confidence=0.0`, zeroed probabilities, error message) and each non-blank text
yields its normal prediction. -/
theorem batch_predict_contract (penv : PredEnv) (m v : Artifact) (info : Option ModelInfo)
    (ll : Option Nat) (texts : List String) :
    (texts.length > 100 →
      batch_predict penv (some ⟨some m, some v, info, ll⟩) texts =
        .httpError 400 "Máximo de 100 textos por requisição") ∧
    (texts.length ≤ 100 →
      batch_predict penv (some ⟨some m, some v, info, ll⟩) texts =
        .ok (texts.map (batchItem penv m v))) := by
  constructor
  · intro h
    simp [batch_predict, is_model_loaded, h]
  · intro h
    have h' : ¬ texts.length > 100 := by omega
    simp [batch_predict, is_model_loaded, h', runBatch_loaded]

/-- C6 witness: a 101-item batch rejected, and a 3-item batch with one blank
text mapped to entries in input order. -/
theorem batch_predict_contract_witness :
    ((List.replicate 101 "x").length > 100 ∧
      batch_predict penv0 (some ⟨some 0, some 0, none, none⟩) (List.replicate 101 "x") =
        .httpError 400 "Máximo de 100 textos por requisição") ∧
    ((["a", " ", "b"] : List String).length ≤ 100 ∧
      batch_predict penv0 (some ⟨some 0, some 0, none, none⟩) ["a", " ", "b"] =
        .ok ((["a", " ", "b"] : List String).map (batchItem penv0 0 0))) :=
  ⟨⟨by decide,
    (batch_predict_contract penv0 0 0 none none (List.replicate 101 "x")).1 (by decide)⟩,
   ⟨by decide,
    (batch_predict_contract penv0 0 0 none none ["a", " ", "b"]).2 (by decide)⟩⟩

/-- C7 counterexample: `download_model` returns the same `None` for a not-found
failure and for any other transport failure (they are indistinguishable to the
caller), and `list_models` returns `[]` when the backend call itself raised —
the same value it returns when the prefix genuinely matches nothing. -/
theorem s3_failures_indistinguishable :
    download_model ⟨.raisesNotFound, .ok 0⟩ = none ∧
    download_model ⟨.raisesTransport, .ok 0⟩ = none ∧
    download_model ⟨.raisesNotFound, .ok 0⟩ = download_model ⟨.raisesTransport, .ok 0⟩ ∧
    list_models .raises = [] ∧
    list_models .raises = list_models (.ok []) := by decide

/-- C7 (amended): `download_model` returns the deserialized object on full
success and `None` on any failure — not-found, transport, or deserialization
alike, without distinguishing them — and `list_models` returns the listed keys
on success and `[]` both when the prefix matches nothing and when the backend
call failed: transport failures are swallowed (logged only) at this layer. -/
theorem s3_swallows_failures (e : DownloadEnv) :
    (∀ a, e.downloadFile = .ok → e.loadObject = .ok a → download_model e = some a) ∧
    (e.downloadFile ≠ .ok ∨ e.loadObject = .raises → download_model e = none) ∧
    (∀ ks, list_models (.ok ks) = ks) ∧
    list_models .raises = [] := by
  refine ⟨?_, ?_, fun ks => rfl, rfl⟩
  · intro a h1 h2
    simp [download_model, h1, h2]
  · intro h
    cases hd : e.downloadFile with
    | ok =>
      rcases h with h | h
      · exact absurd hd h
      · simp [download_model, hd, h]
    | raisesNotFound => simp [download_model, hd]
    | raisesTransport => simp [download_model, hd]

/-- C7 witness: the amended download/list behaviour at concrete outcomes. -/
theorem s3_swallows_failures_witness :
    download_model ⟨.ok, .ok 3⟩ = some 3 ∧
    download_model ⟨.raisesTransport, .ok 3⟩ = none ∧
    list_models (.ok ["models/best_model.joblib"]) = ["models/best_model.joblib"] :=
  ⟨(s3_swallows_failures ⟨.ok, .ok 3⟩).1 3 rfl rfl,
   (s3_swallows_failures ⟨.raisesTransport, .ok 3⟩).2.1 (Or.inl (by decide)),
   (s3_swallows_failures ⟨.ok, .ok 3⟩).2.2.1 ["models/best_model.joblib"]⟩

/-- C9: in `batch_predict` the model-loaded check precedes the batch-size
check — a batch of more than 100 items submitted while no model is loaded (or
while the loader is missing) yields the 503 service-unavailable error, not the
400 over-limit error. -/
theorem batch_size_check_after_loaded_check (penv : PredEnv) (s : LoaderState)
    (texts : List String) (h1 : is_model_loaded s = false) (h2 : texts.length > 100) :
    batch_predict penv (some s) texts = .httpError 503 "Modelo não está disponível" ∧
    batch_predict penv none texts = .httpError 503 "Modelo não está disponível" := by
  constructor
  · simp [batch_predict, h1]
  · rfl

/-- C9 witness: 101 items against an unloaded state yield the 503 error. -/
theorem batch_size_check_after_loaded_check_witness :
    is_model_loaded initialState = false ∧ (List.replicate 101 "x").length > 100 ∧
    batch_predict penv0 (some initialState) (List.replicate 101 "x") =
      .httpError 503 "Modelo não está disponível" ∧
    batch_predict penv0 none (List.replicate 101 "x") =
      .httpError 503 "Modelo não está disponível" :=
  ⟨rfl, by decide,
   (batch_size_check_after_loaded_check penv0 initialState (List.replicate 101 "x")
     rfl (by decide)).1,
   (batch_size_check_after_loaded_check penv0 initialState (List.replicate 101 "x")
     rfl (by decide)).2⟩

/-- C10: the local tier takes the first `.joblib` file of the directory
listing as the model, with no exclusion of the fixed vectorizer filename: when
that first file is `vectorizer.joblib` itself and it deserializes, the tier
reports success with the very same artifact adopted as both the model and the
vectorizer, and source `'local'`. -/
theorem local_first_joblib_can_be_vectorizer (env : LoadEnv) (cfg : S3Config)
    (s : LoaderState) (a : Artifact)
    (h0 : remoteOk env = false)
    (h1 : env.localDirExists = true)
    (h2 : (env.localFiles.filter (fun f => endswith f ".joblib")).head? =
      some "vectorizer.joblib")
    (h3 : env.fileExists "vectorizer.joblib" = true)
    (h4 : env.loadFile "vectorizer.joblib" = .ok a) :
    ∃ s₂, load_model env cfg s = (true, s₂) ∧
      s₂.model = some a ∧ s₂.vectorizer = some a ∧ sourceOf s₂ = some "local" := by
  rw [loadModel_of_remoteFail env cfg s h0]
  have hatt : localAttempt env (postRemoteState env s) =
      .success { postRemoteState env s with model := some a, vectorizer := some a }
        "vectorizer.joblib" := by
    cases hf : env.localFiles.filter (fun f => endswith f ".joblib") with
    | nil => rw [hf] at h2; cases h2
    | cons mf rest =>
      rw [hf] at h2
      have hmf : mf = "vectorizer.joblib" := by
        simpa using h2
      subst hmf
      simp [localAttempt, h1, hf, h3, h4, localVectorizerStep, localCheck]
  rw [fallback_of_success env _ _ _ hatt]
  exact ⟨_, rfl, rfl, rfl, rfl⟩

/-- C10 witness: a directory whose only artifact file is `vectorizer.joblib`,
adopted as both model and vectorizer. -/
theorem local_first_joblib_can_be_vectorizer_witness :
    ∃ s₂, load_model envVecFirst cfg0 initialState = (true, s₂) ∧
      s₂.model = some 5 ∧ s₂.vectorizer = some 5 ∧ sourceOf s₂ = some "local" :=
  local_first_joblib_can_be_vectorizer envVecFirst cfg0 initialState 5
    (by decide) rfl (by decide) rfl rfl

end FakeNews
